import Mathlib

/-!
Shallow embedding of the keybinding resolution engine of this repository:
`src/vs/platform/keybinding/common/keybindingResolver.ts` (rule normalization,
rule-set combination with removal directives, the resolver index with shadow
detection, dispatch-time resolution, and the canonical default-rules text
rendering) and `src/vs/platform/keybinding/common/abstractKeybindingService.ts`
(the chord state machine of `_dispatch`).

Machine integers do not occur in the indexed fragment; key-press codes are
opaque integer-like values and are embedded as `Nat`.
-/

set_option linter.unusedVariables false

/-- Modelled from the spec (the `Keybinding` class of `vs/base/common/keyCodes`
is not among the sources): one or two key-press codes in sequence; two codes
form a chord; equality is structural.  The source packs a chord into a single
32-bit value (`first | (chordPart << 16)`), which is injective on the 16-bit
parts, so structural equality coincides with equality of encoded values. -/
inductive Keybinding where
  | simple (code : Nat)
  | chord (first : Nat) (chordPart : Nat)
deriving DecidableEq, Repr

namespace Keybinding

/-- Source: `Keybinding.isChord()`. -/
def isChord : Keybinding → Bool
  | .simple _ => false
  | .chord _ _ => true

/-- Source: `Keybinding.value` (for a non-chord this is the key-press code;
for a chord it is the packed 32-bit encoding `first | (chordPart << 16)`). -/
def value : Keybinding → Nat
  | .simple code => code
  | .chord first chordPart => first + chordPart * 65536

/-- Source: `Keybinding.extractFirstPart().value`. -/
def firstPartValue : Keybinding → Nat
  | .simple code => code
  | .chord first _ => first

/-- Source: `Keybinding.extractChordPart().value`. -/
def chordPartValue : Keybinding → Nat
  | .simple code => code
  | .chord _ chordPart => chordPart

end Keybinding

/-- Modelled from the spec (the `SimpleKeybinding` class of
`vs/base/common/keyCodes` is not among the sources): a single key-press,
carrying its code and whether it is a pure modifier press
(`isModifierKey()` in the source). -/
structure SimpleKeybinding where
  value : Nat
  isModifierKey : Bool
deriving DecidableEq, Repr

/-- A normalized context-key condition, abstracted at the interface the
resolver consumes (`vs/platform/contextkey/common/contextkey` is not among the
sources): `clauses` is the list of conjuncts of the normalized serialization,
i.e. the result of `serialize().split(' && ')`.  Structural equality models
`ContextKeyExpr.equals` on normalized expressions. -/
structure ContextKeyExpr where
  clauses : List String
deriving DecidableEq, Repr

namespace ContextKeyExpr

/-- Source interface: `serialize()`; the clauses joined by ` && `. -/
def serialize (e : ContextKeyExpr) : String :=
  String.intercalate " && " e.clauses

/-- Source interface: `evaluate(context)`.  A context assigns a truth value to
each normalized clause; a conjunction evaluates true iff every clause does. -/
def evaluate (e : ContextKeyExpr) (ctx : String → Bool) : Bool :=
  e.clauses.all ctx

end ContextKeyExpr

/-- Source: class `NormalizedKeybindingItem` (fields). -/
structure NormalizedKeybindingItem where
  keybinding : Option Keybinding
  bubble : Bool
  command : String
  commandArgs : Option String
  when : Option ContextKeyExpr
  isDefault : Bool
deriving DecidableEq, Repr

namespace NormalizedKeybindingItem

/-- Source: the `NormalizedKeybindingItem` constructor.  `bubble` is true iff
the raw command identifier starts with the caret pass-through marker
(`command ? command.charCodeAt(0) === CharCode.Caret : false`), in which case
the marker is stripped from the stored command. -/
def make (keybinding : Option Keybinding) (command : String)
    (commandArgs : Option String) (when : Option ContextKeyExpr)
    (isDefault : Bool) : NormalizedKeybindingItem :=
  let bubble : Bool := !command.isEmpty && command.front == '^'
  { keybinding := keybinding
    bubble := bubble
    command := if bubble then command.drop 1 else command
    commandArgs := commandArgs
    when := when
    isDefault := isDefault }

end NormalizedKeybindingItem

/-- Lifting of `isChord()` to a nullable keybinding (a call on `null` cannot occur
on the paths the source takes; `false` is a safe default for totality). -/
def isChordOpt : Option Keybinding → Bool
  | some kb => kb.isChord
  | none => false

/-- Lookup in an association list, modelling indexing a JS object / `Map`. -/
def assocGet {α β : Type} [DecidableEq α] : List (α × β) → α → Option β
  | [], _ => none
  | (k, v) :: rest, key => if k = key then some v else assocGet rest key

/-- Update (or insert) in an association list, modelling assignment to a JS
object / `Map` entry. -/
def assocSet {α β : Type} [DecidableEq α] : List (α × β) → α → β → List (α × β)
  | [], key, v => [(key, v)]
  | (k, w) :: rest, key, v =>
      if k = key then (key, v) :: rest else (k, w) :: assocSet rest key v

/-- Remove the first occurrence of an element from a list, modelling the
identity-based `splice` in `_removeFromLookupMap` (each lookup-map entry stems
from exactly one bucket entry, so removing the first structurally equal
occurrence has the same observable effect). -/
def removeFirst {α : Type} [DecidableEq α] : List α → α → List α
  | [], _ => []
  | x :: xs, a => if x = a then xs else x :: removeFirst xs a

namespace KeybindingResolver

/-- Source: `KeybindingResolver._isTargetedForRemoval`. -/
def isTargetedForRemoval (defaultKb : NormalizedKeybindingItem)
    (keybinding : Option Keybinding) (command : String)
    (when : Option ContextKeyExpr) : Bool :=
  decide (defaultKb.command = command) &&
  (match keybinding with
   | none => true
   | some kb => decide (defaultKb.keybinding = some kb)) &&
  (match when with
   | none => true
   | some w =>
     match defaultKb.when with
     | none => false
     | some dw => decide (dw = w))

/-- An override whose command id starts with `-` is a removal directive
(source: the guard in `KeybindingResolver.combine`). -/
def isRemovalDirective (override : NormalizedKeybindingItem) : Bool :=
  !override.command.isEmpty && override.command.front == '-'

/-- The loop of `KeybindingResolver.combine`: walk the overrides in order,
shrinking the defaults copy on each removal directive (the source's backward
`splice` scan deletes every matching default, i.e. filters the list) and
accumulating the non-removal overrides in input order. -/
def combineLoop (defaults : List NormalizedKeybindingItem)
    (overridesAcc : List NormalizedKeybindingItem) :
    List NormalizedKeybindingItem → List NormalizedKeybindingItem
  | [] => defaults ++ overridesAcc
  | override :: rest =>
      if isRemovalDirective override then
        combineLoop
          (defaults.filter (fun d =>
            !isTargetedForRemoval d override.keybinding
              (override.command.drop 1) override.when))
          overridesAcc rest
      else
        combineLoop defaults (overridesAcc ++ [override]) rest

/-- Source: `KeybindingResolver.combine`. -/
def combine (defaults : List NormalizedKeybindingItem)
    (rawOverrides : List NormalizedKeybindingItem) :
    List NormalizedKeybindingItem :=
  combineLoop defaults [] rawOverrides

/-- Source: `KeybindingResolver.whenIsEntirelyIncluded`.  The first flag is
`inNormalizedForm`; our conditions already store the normalized clause list,
so normalization is the identity on this representation.  The body builds the
set of `a`'s clauses and requires every clause of `b` to be in it (`b` absent
is always-true and the test holds; `a` absent with `b` present fails). -/
def whenIsEntirelyIncluded (inNormalizedForm : Bool)
    (a b : Option ContextKeyExpr) : Bool :=
  match b with
  | none => true
  | some bb =>
    match a with
    | none => false
    | some aa => bb.clauses.all (fun rule => decide (rule ∈ aa.clauses))

end KeybindingResolver

/-- The resolver index (source: the private state of `KeybindingResolver`).
JS objects / `Map`s are embedded as association lists; `warnings` collects the
non-fatal conflict diagnostics emitted by `console.warn` in `_addKeyPress`,
as pairs (shadowed command, shadowing command). -/
structure KeybindingResolver where
  defaultKeybindings : List NormalizedKeybindingItem
  shouldWarnOnConflict : Bool
  defaultBoundCommands : List String
  map : List (Nat × List NormalizedKeybindingItem)
  chords : List (Nat × List (Nat × List NormalizedKeybindingItem))
  lookupMap : List (String × List NormalizedKeybindingItem)
  warnings : List (String × String)
deriving DecidableEq, Repr

namespace KeybindingResolver

/-- Source: `KeybindingResolver._addToLookupMap`. -/
def addToLookupMap (r : KeybindingResolver)
    (item : NormalizedKeybindingItem) : KeybindingResolver :=
  if item.command = "" then r
  else
    match assocGet r.lookupMap item.command with
    | none => { r with lookupMap := assocSet r.lookupMap item.command [item] }
    | some arr =>
        { r with lookupMap := assocSet r.lookupMap item.command (arr ++ [item]) }

/-- Source: `KeybindingResolver._removeFromLookupMap`. -/
def removeFromLookupMap (r : KeybindingResolver)
    (item : NormalizedKeybindingItem) : KeybindingResolver :=
  match assocGet r.lookupMap item.command with
  | none => r
  | some arr =>
      { r with lookupMap := assocSet r.lookupMap item.command (removeFirst arr item) }

/-- One iteration of the conflict scan in `_addKeyPress`: skip candidates with
the same command, skip chord candidates that only share the first key-press
with a chord item, and treat the remaining candidates whose `when` entirely
includes the item's `when` as shadowed (warn when enabled and the inserted
item is a default, and remove the shadowed candidate from the lookup map). -/
def handleConflict (item : NormalizedKeybindingItem)
    (r : KeybindingResolver) (conflict : NormalizedKeybindingItem) :
    KeybindingResolver :=
  if conflict.command = item.command then r
  else if isChordOpt conflict.keybinding && isChordOpt item.keybinding
      && decide (conflict.keybinding ≠ item.keybinding) then r
  else if whenIsEntirelyIncluded true conflict.when item.when then
    let r1 : KeybindingResolver :=
      { r with warnings := r.warnings ++
          (if r.shouldWarnOnConflict && item.isDefault then
            [(conflict.command, item.command)]
          else []) }
    removeFromLookupMap r1 conflict
  else r

/-- The conflict scan of `_addKeyPress` runs from the last candidate down to
the first; this walks the reversed candidate list. -/
def shadowScan (item : NormalizedKeybindingItem) :
    KeybindingResolver → List NormalizedKeybindingItem → KeybindingResolver
  | r, [] => r
  | r, c :: cs => shadowScan item (handleConflict item r c) cs

/-- Source: `KeybindingResolver._addKeyPress`. -/
def addKeyPress (r : KeybindingResolver) (keypress : Nat)
    (item : NormalizedKeybindingItem) : KeybindingResolver :=
  match assocGet r.map keypress with
  | none =>
      addToLookupMap { r with map := assocSet r.map keypress [item] } item
  | some conflicts =>
      let r1 := shadowScan item r conflicts.reverse
      addToLookupMap
        { r1 with map := assocSet r1.map keypress (conflicts ++ [item]) } item

/-- The chord-bucket insertion of the constructor:
`this._chords[first][chordPart].push(k)` with on-demand creation. -/
def addChordEntry (r : KeybindingResolver) (first chordPart : Nat)
    (item : NormalizedKeybindingItem) : KeybindingResolver :=
  let inner := (assocGet r.chords first).getD []
  let bucket := (assocGet inner chordPart).getD []
  { r with chords := assocSet r.chords first (assocSet inner chordPart (bucket ++ [item])) }

/-- The body of the constructor's indexing loop: rules with a null keybinding
are skipped; a chord is inserted into its chord bucket and into the flat
bucket of its first part; a single key-press is inserted into its flat
bucket. -/
def insertItem (r : KeybindingResolver) (k : NormalizedKeybindingItem) :
    KeybindingResolver :=
  match k.keybinding with
  | none => r
  | some kb =>
      if kb.isChord then
        let r1 := addChordEntry r kb.firstPartValue kb.chordPartValue k
        addKeyPress r1 kb.firstPartValue k
      else
        addKeyPress r kb.value k

/-- Source: the `KeybindingResolver` constructor.  `defaultBoundCommands` is
collected from the raw defaults before `combine` runs; then every rule of the
combined list is indexed in order. -/
def make (defaultKeybindings overrides : List NormalizedKeybindingItem)
    (shouldWarnOnConflict : Bool) : KeybindingResolver :=
  let init : KeybindingResolver :=
    { defaultKeybindings := defaultKeybindings
      shouldWarnOnConflict := shouldWarnOnConflict
      defaultBoundCommands := defaultKeybindings.map (fun k => k.command)
      map := []
      chords := []
      lookupMap := []
      warnings := [] }
  (combine defaultKeybindings overrides).foldl insertItem init

/-- Source: `KeybindingResolver.getDefaultBoundCommands`. -/
def getDefaultBoundCommands (r : KeybindingResolver) : List String :=
  r.defaultBoundCommands

/-- Source: `KeybindingResolver.lookupKeybindings` (reversing puts the most
specific, i.e. most recently inserted, item first). -/
def lookupKeybindings (r : KeybindingResolver) (commandId : String) :
    List NormalizedKeybindingItem :=
  match assocGet r.lookupMap commandId with
  | none => []
  | some items => if items.length = 0 then [] else items.reverse

/-- Source: `KeybindingResolver.contextMatchesRules`. -/
def contextMatchesRules (ctx : String → Bool)
    (rules : Option ContextKeyExpr) : Bool :=
  match rules with
  | none => true
  | some e => e.evaluate ctx

/-- Source: `KeybindingResolver._findCommand` restricted to a present bucket:
scan from the last candidate to the first and return the first whose `when`
matches the context. -/
def findCommandInList (ctx : String → Bool) :
    List NormalizedKeybindingItem → Option NormalizedKeybindingItem
  | [] => none
  | k :: rest =>
      match findCommandInList ctx rest with
      | some r => some r
      | none => if contextMatchesRules ctx k.when then some k else none

/-- Source: `KeybindingResolver._findCommand` (`null`/`undefined` candidate
lists yield `null`). -/
def findCommand (ctx : String → Bool) :
    Option (List NormalizedKeybindingItem) → Option NormalizedKeybindingItem
  | none => none
  | some ms => findCommandInList ctx ms

end KeybindingResolver

/-- Source: interface `IResolveResult` (`null` fields are `none`). -/
structure IResolveResult where
  enterChord : Option SimpleKeybinding
  commandId : Option String
  commandArgs : Option String
  bubble : Bool
deriving DecidableEq, Repr

namespace KeybindingResolver

/-- Source: `KeybindingResolver.resolve`.  With a pending chord the candidate
list comes from the two-level chord index (a missing first- or second-level
bucket yields no candidates, hence `null`, exactly as the source's early
`return null` plus `undefined` indexing); otherwise from the flat index.  A
chord rule matched with no pending chord asks to enter chord mode. -/
def resolve (r : KeybindingResolver) (ctx : String → Bool)
    (currentChord : Option SimpleKeybinding) (keypress : SimpleKeybinding) :
    Option IResolveResult :=
  let lookupList : Option (List NormalizedKeybindingItem) :=
    match currentChord with
    | some cc =>
        (assocGet r.chords cc.value).bind (fun m => assocGet m keypress.value)
    | none => assocGet r.map keypress.value
  match findCommand ctx lookupList with
  | none => none
  | some result =>
      if currentChord.isNone && isChordOpt result.keybinding then
        some { enterChord := some keypress, commandId := none,
               commandArgs := none, bubble := false }
      else
        some { enterChord := none, commandId := some result.command,
               commandArgs := result.commandArgs, bubble := result.bubble }

end KeybindingResolver

/-- JS truthiness of `resolveResult && resolveResult.commandId`: a result must
be present, with a non-null, non-empty command id. -/
def commandIdTruthy : Option IResolveResult → Bool
  | some res =>
      match res.commandId with
      | some s => !s.isEmpty
      | none => false
  | none => false

/-- The `enterChord` field of a possibly-null resolve result. -/
def resultEnterChord : Option IResolveResult → Option SimpleKeybinding
  | some res => res.enterChord
  | none => none

/-- The `bubble` field of a possibly-null resolve result. -/
def resultBubble : Option IResolveResult → Bool
  | some res => res.bubble
  | none => false

/-- The command invocation handed to the external command executor by
`_dispatch` (command id and args), when one occurs. -/
def resultInvocation : Option IResolveResult → Option (String × Option String)
  | some res =>
      match res.commandId with
      | some s => if s.isEmpty then none else some (s, res.commandArgs)
      | none => none
  | none => none

/-- The outcome of one `_dispatch` step: the new pending-chord state, whether
default key handling should be suppressed, and the command invocation (if
any) handed to the executor. -/
structure DispatchResult where
  currentChord : Option SimpleKeybinding
  shouldPreventDefault : Bool
  executed : Option (String × Option String)
deriving DecidableEq, Repr

/-- Source: `AbstractKeybindingService._dispatch`.  A pure modifier press is a
no-op probe.  On `enterChord` the pending chord is recorded and default
handling suppressed.  Otherwise the pending chord is cleared unconditionally;
when a status service is present and a pending chord existed but no command
matched, default handling is suppressed (missing-chord feedback); an invoked
command suppresses default handling unless its `bubble` flag is set. -/
def dispatchStep (r : KeybindingResolver) (hasStatusService : Bool)
    (ctx : String → Bool) (currentChord : Option SimpleKeybinding)
    (keypress : SimpleKeybinding) : DispatchResult :=
  if keypress.isModifierKey then
    { currentChord := currentChord, shouldPreventDefault := false, executed := none }
  else
    let resolveResult := r.resolve ctx currentChord keypress
    match resultEnterChord resolveResult with
    | some ec =>
        { currentChord := some ec, shouldPreventDefault := true, executed := none }
    | none =>
        let abandoned :=
          hasStatusService && currentChord.isSome && !commandIdTruthy resolveResult
        if commandIdTruthy resolveResult then
          { currentChord := none
            shouldPreventDefault := abandoned || !resultBubble resolveResult
            executed := resultInvocation resolveResult }
        else
          { currentChord := none, shouldPreventDefault := abandoned, executed := none }

/-- Source: `rightPaddedString`.  The source pads with
`new Array(minChars - str.length).join(' ')`, and `Array(n).join(' ')` in
JavaScript produces `n - 1` separators, hence `n - 1` spaces. -/
def rightPaddedString (str : String) (minChars : Nat) : String :=
  if str.length < minChars then
    str ++ String.mk (List.replicate (minChars - str.length - 1) ' ')
  else str

/-- Source: class `OutputBuilder`. -/
structure OutputBuilder where
  lines : List String
  currentLine : String
deriving DecidableEq, Repr

namespace OutputBuilder

/-- A fresh builder. -/
def empty : OutputBuilder := { lines := [], currentLine := "" }

/-- Source: `OutputBuilder.write`. -/
def write (out : OutputBuilder) (str : String) : OutputBuilder :=
  { out with currentLine := out.currentLine ++ str }

/-- Source: `OutputBuilder.writeLine` (default argument is the empty string). -/
def writeLine (out : OutputBuilder) (str : String) : OutputBuilder :=
  { lines := out.lines ++ [out.currentLine ++ str], currentLine := "" }

/-- Source: `OutputBuilder.toString`. -/
def toString (out : OutputBuilder) : String :=
  String.intercalate "\n" (out.writeLine "").lines

end OutputBuilder

/-- Modelled from the spec: `JSON.stringify` applied to a key descriptor or a
command identifier (both plain identifier-like strings, containing no
characters that require JSON escaping) wraps it in double quotes. -/
def jsonQuote (s : String) : String := "\"" ++ s ++ "\""

namespace IOSupport

/-- Source: `IOSupport.writeKeybindingItem`.  The key-descriptor label
function stands for the external `KeybindingLabels.toUserSettingsLabel`
(`vs/platform/keybinding/common/keybindingLabels` is not among the sources). -/
def writeKeybindingItem (kbLabel : Option Keybinding → String)
    (out : OutputBuilder) (item : NormalizedKeybindingItem) : OutputBuilder :=
  let quotedSerializedKeybinding := jsonQuote (kbLabel item.keybinding)
  let out := out.write
    ("\x7b \"key\": " ++ rightPaddedString (quotedSerializedKeybinding ++ ",") 25
      ++ " \"command\": ")
  let serializedWhen :=
    match item.when with
    | none => ""
    | some w => w.serialize
  let quotedSerializeCommand := jsonQuote item.command
  let out :=
    if serializedWhen.length > 0 then
      ((out.write (quotedSerializeCommand ++ ",")).writeLine "").write
        ("                                     \"when\": \"" ++ serializedWhen ++ "\" ")
    else
      out.write (quotedSerializeCommand ++ " ")
  out.write "\x7d"

end IOSupport

/-- The inclusion predicate exactly as the specification words it for the
shadow test on rules `r` (being inserted) and `c` (already in the bucket):
"every condition-clause present in `c.when`'s normalized serialization is also
present in `r.when`'s normalized serialization (an absent condition is treated
as always true and is entirely included in anything, and includes nothing
unless the other side is also absent)". -/
def specEntirelyIncluded (cWhen rWhen : Option ContextKeyExpr) : Bool :=
  match cWhen with
  | none => true
  | some cc =>
    match rWhen with
    | none => false
    | some rr => cc.clauses.all (fun s => decide (s ∈ rr.clauses))

/-- The clause list of a nullable condition (an absent condition contributes
no conjunct). -/
def clausesOf : Option ContextKeyExpr → List String
  | none => []
  | some e => e.clauses

/-- Helper: a default survives a list of overrides iff no removal directive
among them targets it. -/
def survivesOverrides (overrides : List NormalizedKeybindingItem)
    (d : NormalizedKeybindingItem) : Bool :=
  overrides.all (fun o =>
    !(KeybindingResolver.isRemovalDirective o &&
      KeybindingResolver.isTargetedForRemoval d o.keybinding (o.command.drop 1) o.when))

theorem survivesOverrides_nil (d : NormalizedKeybindingItem) :
    survivesOverrides [] d = true := by
  simp [survivesOverrides]

theorem combineLoop_eq (os : List NormalizedKeybindingItem) :
    ∀ (defaults acc : List NormalizedKeybindingItem),
      KeybindingResolver.combineLoop defaults acc os =
        defaults.filter (survivesOverrides os) ++ acc
          ++ os.filter (fun o => !KeybindingResolver.isRemovalDirective o) := by
  induction os with
  | nil =>
      intro defaults acc
      rw [KeybindingResolver.combineLoop,
        List.filter_congr (fun d _ => survivesOverrides_nil d)]
      simp
  | cons o rest ih =>
      intro defaults acc
      by_cases h : KeybindingResolver.isRemovalDirective o = true
      · rw [KeybindingResolver.combineLoop, if_pos h, ih, List.filter_filter]
        have hpred : ∀ d ∈ defaults,
            (survivesOverrides rest d &&
              !KeybindingResolver.isTargetedForRemoval d o.keybinding
                (o.command.drop 1) o.when) =
            survivesOverrides (o :: rest) d := by
          intro d _
          simp [survivesOverrides, List.all_cons, h, Bool.and_comm]
        rw [List.filter_congr hpred]
        simp [List.filter_cons, h]
      · have h' : KeybindingResolver.isRemovalDirective o = false := by
          simp at h
          exact h
        rw [KeybindingResolver.combineLoop, if_neg h, ih]
        have hpred : ∀ d ∈ defaults,
            survivesOverrides rest d = survivesOverrides (o :: rest) d := by
          intro d _
          simp [survivesOverrides, List.all_cons, h']
        rw [List.filter_congr hpred]
        simp [List.filter_cons, h', List.append_assoc]

theorem isTargetedForRemoval_spec (d : NormalizedKeybindingItem)
    (kb : Option Keybinding) (c : String) (w : Option ContextKeyExpr) :
    KeybindingResolver.isTargetedForRemoval d kb c w =
      (decide (d.command = c) && (kb.isNone || decide (d.keybinding = kb)) &&
        (w.isNone || decide (d.when = w))) := by
  cases kb <;> cases w <;>
    cases hd : d.when <;>
      simp [KeybindingResolver.isTargetedForRemoval, hd]

/-- Claim C4: `combine` processes overrides in order; each override whose
command id starts with `-` (removal directive for command `C`, optional
keybinding filter, optional when filter) deletes every default `d` with
`d.command = C` whose keybinding equals the filter (or the filter is absent)
and whose `when` structurally equals the filter (or the filter is absent);
the directive itself never appears in the output, and every non-removal
override is appended in input order after the surviving defaults. -/
theorem combine_removal_directive_semantics
    (defaults rawOverrides : List NormalizedKeybindingItem) :
    KeybindingResolver.combine defaults rawOverrides =
      defaults.filter (fun d => rawOverrides.all (fun o =>
        !(KeybindingResolver.isRemovalDirective o &&
          (decide (d.command = o.command.drop 1) &&
            (o.keybinding.isNone || decide (d.keybinding = o.keybinding)) &&
            (o.when.isNone || decide (d.when = o.when))))))
      ++ rawOverrides.filter (fun o => !KeybindingResolver.isRemovalDirective o) := by
  rw [KeybindingResolver.combine, combineLoop_eq]
  simp only [List.append_nil]
  congr 1
  apply List.filter_congr
  intro d _
  simp [survivesOverrides, isTargetedForRemoval_spec]

/-- Claim C5: combining any rule list with an empty override list is the
identity. -/
theorem combine_empty_overrides (R : List NormalizedKeybindingItem) :
    KeybindingResolver.combine R [] = R := by
  simp [KeybindingResolver.combine, KeybindingResolver.combineLoop]

/-- Claim C1 (counterexample to the claim as stated): for `c.when = [a]` and
`r.when = [a, b]`, every clause of `c.when` is present in `r.when` (the
claim's criterion holds, `specEntirelyIncluded` is true), yet the shadow test
used during index construction, `whenIsEntirelyIncluded(true, c.when,
r.when)`, is false; for `c.when` absent and `r.when` present the claim
demands the test hold, but it is false as well. -/
theorem shadow_test_direction_counterexample :
    KeybindingResolver.whenIsEntirelyIncluded true
        (some ⟨["a"]⟩) (some ⟨["a", "b"]⟩) = false ∧
    specEntirelyIncluded (some ⟨["a"]⟩) (some ⟨["a", "b"]⟩) = true ∧
    KeybindingResolver.whenIsEntirelyIncluded true none (some ⟨["a"]⟩) = false ∧
    specEntirelyIncluded none (some ⟨["a"]⟩) = true := by
  decide

/-- Claim C1 (amended): the shadow test `whenIsEntirelyIncluded(true, c.when,
r.when)` holds exactly when every condition-clause present in `r.when`'s
normalized serialization is also present in `c.when`'s normalized
serialization — the mirror image of the claim's wording: it equals the
spec-worded inclusion predicate with its two sides swapped, so an absent
`r.when` is included in anything, while an absent `c.when` admits nothing
unless `r.when` is also absent. -/
theorem whenIsEntirelyIncluded_characterization (a b : Option ContextKeyExpr) :
    KeybindingResolver.whenIsEntirelyIncluded true a b = specEntirelyIncluded b a ∧
    (KeybindingResolver.whenIsEntirelyIncluded true a b = true ↔
      (b = none ∨ (a ≠ none ∧ ∀ s ∈ clausesOf b, s ∈ clausesOf a))) := by
  constructor
  · cases a <;> cases b <;>
      simp [KeybindingResolver.whenIsEntirelyIncluded, specEntirelyIncluded]
  · cases a <;> cases b <;>
      simp [KeybindingResolver.whenIsEntirelyIncluded, clausesOf, List.all_eq_true]

theorem make_single_simple (item : NormalizedKeybindingItem) (code : Nat) (warn : Bool)
    (hkb : item.keybinding = some (.simple code)) (hcmd : item.command ≠ "") :
    KeybindingResolver.make [item] [] warn =
      { defaultKeybindings := [item], shouldWarnOnConflict := warn,
        defaultBoundCommands := [item.command],
        map := [(code, [item])], chords := [],
        lookupMap := [(item.command, [item])], warnings := [] } := by
  simp [KeybindingResolver.make, KeybindingResolver.combine,
    KeybindingResolver.combineLoop, KeybindingResolver.insertItem, hkb,
    Keybinding.isChord, Keybinding.value, KeybindingResolver.addKeyPress,
    assocGet, assocSet, KeybindingResolver.addToLookupMap, hcmd]

theorem make_single_chord (item : NormalizedKeybindingItem) (a b : Nat) (warn : Bool)
    (hkb : item.keybinding = some (.chord a b)) (hcmd : item.command ≠ "") :
    KeybindingResolver.make [item] [] warn =
      { defaultKeybindings := [item], shouldWarnOnConflict := warn,
        defaultBoundCommands := [item.command],
        map := [(a, [item])], chords := [(a, [(b, [item])])],
        lookupMap := [(item.command, [item])], warnings := [] } := by
  simp [KeybindingResolver.make, KeybindingResolver.combine,
    KeybindingResolver.combineLoop, KeybindingResolver.insertItem, hkb,
    Keybinding.isChord, Keybinding.firstPartValue, Keybinding.chordPartValue,
    KeybindingResolver.addChordEntry, KeybindingResolver.addKeyPress,
    assocGet, assocSet, KeybindingResolver.addToLookupMap, hcmd]


theorem foldl_pair_shadow (A B : NormalizedKeybindingItem) (k : Nat)
    (defaults : List NormalizedKeybindingItem) (dbc : List String) (warn : Bool)
    (hA : A.keybinding = some (.simple k)) (hB : B.keybinding = some (.simple k))
    (hcA : A.command ≠ "") (hcB : B.command ≠ "") (hAB : A.command ≠ B.command)
    (hshadow : KeybindingResolver.whenIsEntirelyIncluded true A.when B.when = true) :
    List.foldl KeybindingResolver.insertItem
      { defaultKeybindings := defaults, shouldWarnOnConflict := warn,
        defaultBoundCommands := dbc, map := [], chords := [],
        lookupMap := [], warnings := [] } [A, B] =
      { defaultKeybindings := defaults, shouldWarnOnConflict := warn,
        defaultBoundCommands := dbc,
        map := [(k, [A, B])], chords := [],
        lookupMap := [(A.command, []), (B.command, [B])],
        warnings := if warn && B.isDefault then [(A.command, B.command)] else [] } := by
  have hAB' : B.command ≠ A.command := fun h => hAB h.symm
  simp [KeybindingResolver.insertItem, hA, hB, Keybinding.isChord, Keybinding.value,
    KeybindingResolver.addKeyPress, assocGet, assocSet,
    KeybindingResolver.addToLookupMap, KeybindingResolver.removeFromLookupMap,
    KeybindingResolver.shadowScan, KeybindingResolver.handleConflict,
    hcA, hcB, hAB, hAB', hshadow, isChordOpt, removeFirst]


/-- Claim C2 (amended): for an index built from rule A (command `X`, condition
`c1`, inserted first) and rule B (command `Y`, condition `c2`, inserted after,
same single key-press), where `c2`'s clauses are a subset of `c1`'s clauses
(so `c1` implies `c2` and the code's shadow test fires — the mirror of the
claimed direction): `lookupKeybindings(X)` no longer includes that keybinding;
resolving with any context satisfying `c2` yields Invoke(Y); and resolving
with a context satisfying `c1` but not `c2` yields NoMatch (vacuously, as any
context satisfying `c1` satisfies `c2`). -/
theorem total_shadow_scenario (k : Nat) (X Y : String) (c1 c2 : ContextKeyExpr)
    (argsA argsB : Option String) (warn : Bool) (kp : SimpleKeybinding)
    (hX : X ≠ "") (hY : Y ≠ "") (hXY : X ≠ Y) (hdash : Y.front ≠ '-')
    (hsub : ∀ s ∈ c2.clauses, s ∈ c1.clauses) (hkp : kp.value = k) :
    (KeybindingResolver.make [⟨some (.simple k), false, X, argsA, some c1, true⟩]
        [⟨some (.simple k), false, Y, argsB, some c2, false⟩] warn).lookupKeybindings X = [] ∧
    (∀ ctx : String → Bool, c2.evaluate ctx = true →
      (KeybindingResolver.make [⟨some (.simple k), false, X, argsA, some c1, true⟩]
          [⟨some (.simple k), false, Y, argsB, some c2, false⟩] warn).resolve ctx none kp =
        some { enterChord := none, commandId := some Y, commandArgs := argsB, bubble := false }) ∧
    (∀ ctx : String → Bool, c1.evaluate ctx = true → c2.evaluate ctx = false →
      (KeybindingResolver.make [⟨some (.simple k), false, X, argsA, some c1, true⟩]
          [⟨some (.simple k), false, Y, argsB, some c2, false⟩] warn).resolve ctx none kp = none) := by
  have hshadow : KeybindingResolver.whenIsEntirelyIncluded true (some c1) (some c2) = true := by
    simp [KeybindingResolver.whenIsEntirelyIncluded, List.all_eq_true]
    exact hsub
  have hfr : (Y.front == '-') = false := beq_eq_false_iff_ne.mpr hdash
  have hrem : KeybindingResolver.isRemovalDirective
      ⟨some (.simple k), false, Y, argsB, some c2, false⟩ = false := by
    simp [KeybindingResolver.isRemovalDirective, hfr]
  have hcombine : KeybindingResolver.combine
      [⟨some (.simple k), false, X, argsA, some c1, true⟩]
      [⟨some (.simple k), false, Y, argsB, some c2, false⟩] =
      [⟨some (.simple k), false, X, argsA, some c1, true⟩,
       ⟨some (.simple k), false, Y, argsB, some c2, false⟩] := by
    simp [KeybindingResolver.combine, KeybindingResolver.combineLoop, hrem]
  have hmake : KeybindingResolver.make
      [⟨some (.simple k), false, X, argsA, some c1, true⟩]
      [⟨some (.simple k), false, Y, argsB, some c2, false⟩] warn =
      { defaultKeybindings := [⟨some (.simple k), false, X, argsA, some c1, true⟩],
        shouldWarnOnConflict := warn, defaultBoundCommands := [X],
        map := [(k, [⟨some (.simple k), false, X, argsA, some c1, true⟩,
                     ⟨some (.simple k), false, Y, argsB, some c2, false⟩])],
        chords := [],
        lookupMap := [(X, []), (Y, [⟨some (.simple k), false, Y, argsB, some c2, false⟩])],
        warnings := [] } := by
    rw [KeybindingResolver.make, hcombine]
    have h2 := foldl_pair_shadow
      ⟨some (.simple k), false, X, argsA, some c1, true⟩
      ⟨some (.simple k), false, Y, argsB, some c2, false⟩ k
      [⟨some (.simple k), false, X, argsA, some c1, true⟩] [X] warn
      rfl rfl hX hY hXY hshadow
    simpa using h2
  refine ⟨?_, ?_, ?_⟩
  · simp [hmake, KeybindingResolver.lookupKeybindings, assocGet, hXY]
  · intro ctx hc2
    simp [hmake, KeybindingResolver.resolve, assocGet, hkp,
      KeybindingResolver.findCommand, KeybindingResolver.findCommandInList,
      KeybindingResolver.contextMatchesRules, hc2,
      isChordOpt, Keybinding.isChord]
  · intro ctx hc1 hc2
    exfalso
    have : c2.evaluate ctx = true := by
      rw [ContextKeyExpr.evaluate, List.all_eq_true]
      intro s hs
      have h1 := (List.all_eq_true.mp hc1) s (hsub s hs)
      exact h1
    rw [this] at hc2
    exact Bool.noConfusion hc2


/-- Claim C3 (amended): during index construction a shadow-conflict warning is
recorded exactly when warnings are enabled and the shadowing (inserted) rule's
provenance is default — the shadowed rule's provenance is irrelevant; the
warning is never fatal: construction always completes, having removed the
shadowed rule from the command lookup. -/
theorem conflict_warning_iff_shadower_default (A B : NormalizedKeybindingItem)
    (k : Nat) (warn : Bool)
    (hA : A.keybinding = some (.simple k)) (hB : B.keybinding = some (.simple k))
    (hcA : A.command ≠ "") (hcB : B.command ≠ "") (hAB : A.command ≠ B.command)
    (hshadow : KeybindingResolver.whenIsEntirelyIncluded true A.when B.when = true) :
    (KeybindingResolver.make [A, B] [] warn).warnings =
      (if warn && B.isDefault then [(A.command, B.command)] else []) ∧
    (KeybindingResolver.make [A, B] [] warn).lookupKeybindings A.command = [] := by
  have hcombine : KeybindingResolver.combine [A, B] [] = [A, B] := by
    simp [KeybindingResolver.combine, KeybindingResolver.combineLoop]
  have hmake : KeybindingResolver.make [A, B] [] warn =
      { defaultKeybindings := [A, B], shouldWarnOnConflict := warn,
        defaultBoundCommands := [A.command, B.command],
        map := [(k, [A, B])], chords := [],
        lookupMap := [(A.command, []), (B.command, [B])],
        warnings := if warn && B.isDefault then [(A.command, B.command)] else [] } := by
    rw [KeybindingResolver.make, hcombine]
    have h2 := foldl_pair_shadow A B k [A, B] [A.command, B.command] warn
      hA hB hcA hcB hAB hshadow
    simpa using h2
  exact ⟨by simp [hmake],
    by simp [hmake, KeybindingResolver.lookupKeybindings, assocGet]⟩

/-- Claim C6: for the index built from a chord rule `(k1,k2)` bound to command
`Z` whose condition holds in the current context: dispatching `k1` from the
Idle state yields AwaitChord(`k1`) and no command fires; dispatching `k2`
immediately after yields Invoke(`Z`,...); and dispatching, after an
AwaitChord, any key with no matching chord-bucket entry yields NoMatch and
clears the pending-chord state, so the next key-press is evaluated fresh. -/
theorem chord_round_trip (item : NormalizedKeybindingItem)
    (k1 k2 : SimpleKeybinding) (warn hasStatus : Bool) (ctx : String → Bool)
    (hkb : item.keybinding = some (.chord k1.value k2.value))
    (hcmd : item.command ≠ "")
    (hwhen : KeybindingResolver.contextMatchesRules ctx item.when = true)
    (hm1 : k1.isModifierKey = false) (hm2 : k2.isModifierKey = false) :
    dispatchStep (KeybindingResolver.make [item] [] warn) hasStatus ctx none k1 =
      { currentChord := some k1, shouldPreventDefault := true, executed := none } ∧
    dispatchStep (KeybindingResolver.make [item] [] warn) hasStatus ctx (some k1) k2 =
      { currentChord := none, shouldPreventDefault := !item.bubble,
        executed := some (item.command, item.commandArgs) } ∧
    (∀ k3 : SimpleKeybinding, k3.isModifierKey = false → k3.value ≠ k2.value →
      (KeybindingResolver.make [item] [] warn).resolve ctx (some k1) k3 = none ∧
      dispatchStep (KeybindingResolver.make [item] [] warn) hasStatus ctx (some k1) k3 =
        { currentChord := none, shouldPreventDefault := hasStatus, executed := none }) := by
  have hmake := make_single_chord item k1.value k2.value warn hkb hcmd
  have hempty : item.command.isEmpty = false := by
    rw [Bool.eq_false_iff]
    intro hh
    exact hcmd ((String.isEmpty_iff item.command).mp hh)
  refine ⟨?_, ?_, ?_⟩
  · simp [dispatchStep, hm1, hmake, KeybindingResolver.resolve, assocGet,
      KeybindingResolver.findCommand, KeybindingResolver.findCommandInList,
      hwhen, hkb, isChordOpt, Keybinding.isChord, resultEnterChord]
  · simp [dispatchStep, hm2, hmake, KeybindingResolver.resolve, assocGet,
      KeybindingResolver.findCommand, KeybindingResolver.findCommandInList,
      hwhen, hkb, isChordOpt, Keybinding.isChord, resultEnterChord,
      commandIdTruthy, hempty, resultBubble, resultInvocation]
  · intro k3 hm3 hk32
    have hne : ¬(k2.value = k3.value) := fun h => hk32 h.symm
    have hres : (KeybindingResolver.make [item] [] warn).resolve ctx (some k1) k3 = none := by
      simp [hmake, KeybindingResolver.resolve, assocGet,
        KeybindingResolver.findCommand, hne]
    refine ⟨hres, ?_⟩
    simp [dispatchStep, hm3, hres, resultEnterChord, commandIdTruthy]

/-- Claim C7: a rule whose raw command identifier begins with the `^`
pass-through marker is normalized with the marker stripped and `bubble =
true`; when that rule wins a dispatch, the result is an invocation with
`bubble = true` and the dispatcher reports that default key handling should
not be suppressed for that event. -/
theorem caret_rule_bubbles (raw : String) (code : Nat) (args : Option String)
    (w : Option ContextKeyExpr) (isDef : Bool) (warn hasStatus : Bool)
    (ctx : String → Bool) (kp : SimpleKeybinding)
    (hne : raw.isEmpty = false) (hcaret : raw.front = '^')
    (hrest : raw.drop 1 ≠ "")
    (hwhen : KeybindingResolver.contextMatchesRules ctx w = true)
    (hkp : kp.value = code) (hmod : kp.isModifierKey = false) :
    (NormalizedKeybindingItem.make (some (.simple code)) raw args w isDef).command = raw.drop 1 ∧
    (NormalizedKeybindingItem.make (some (.simple code)) raw args w isDef).bubble = true ∧
    dispatchStep
        (KeybindingResolver.make
          [NormalizedKeybindingItem.make (some (.simple code)) raw args w isDef] [] warn)
        hasStatus ctx none kp =
      { currentChord := none, shouldPreventDefault := false,
        executed := some (raw.drop 1, args) } := by
  have hitem : NormalizedKeybindingItem.make (some (.simple code)) raw args w isDef =
      ⟨some (.simple code), true, raw.drop 1, args, w, isDef⟩ := by
    simp [NormalizedKeybindingItem.make, hne, hcaret]
  have hmake := make_single_simple
    (NormalizedKeybindingItem.make (some (.simple code)) raw args w isDef) code warn
    (by rw [hitem]) (by rw [hitem]; exact hrest)
  have hempty : (raw.drop 1).isEmpty = false := by
    rw [Bool.eq_false_iff]
    intro hh
    exact hrest ((String.isEmpty_iff (raw.drop 1)).mp hh)
  refine ⟨by rw [hitem], by rw [hitem], ?_⟩
  rw [hitem] at hmake
  simp [dispatchStep, hmod, hmake, hitem, KeybindingResolver.resolve, assocGet, hkp,
    KeybindingResolver.findCommand, KeybindingResolver.findCommandInList,
    hwhen, isChordOpt, Keybinding.isChord, resultEnterChord,
    commandIdTruthy, hempty, resultBubble, resultInvocation]

/-- Claim C8 (amended): the dispatcher suppresses default key handling exactly
when the key-press is not a pure modifier and either (i) the press entered
chord mode (AwaitChord — a case the claim omits), (ii) an invocation occurred
with `bubble = false`, or (iii) a status service is present and a pending
chord was just abandoned without a matched command; NoMatch from Idle, Invoke
with `bubble = true`, and modifier-only presses are not suppressed. -/
theorem dispatch_preventDefault_characterization (r : KeybindingResolver)
    (hasStatus : Bool) (ctx : String → Bool)
    (chord : Option SimpleKeybinding) (kp : SimpleKeybinding) :
    (dispatchStep r hasStatus ctx chord kp).shouldPreventDefault =
      (!kp.isModifierKey &&
        ((resultEnterChord (r.resolve ctx chord kp)).isSome ||
          (commandIdTruthy (r.resolve ctx chord kp) &&
            !resultBubble (r.resolve ctx chord kp)) ||
          (hasStatus && chord.isSome &&
            !commandIdTruthy (r.resolve ctx chord kp)))) := by
  cases hmod : kp.isModifierKey with
  | true => simp [dispatchStep, hmod]
  | false =>
    cases henter : resultEnterChord (r.resolve ctx chord kp) with
    | some ec => simp [dispatchStep, hmod, henter]
    | none =>
      cases hct : commandIdTruthy (r.resolve ctx chord kp) with
      | true =>
        simp [dispatchStep, hmod, henter, hct]
      | false =>
        simp [dispatchStep, hmod, henter, hct]

/-- Claim C9: in the canonical default-rules rendering, every entry whose
quoted key descriptor plus trailing comma is shorter than the fixed minimum
column width (24 characters: the source passes 25, and the JavaScript idiom
`Array(n).join(' ')` emits `n - 1` spaces) is padded with spaces to occupy
exactly that width, so entries align; longer entries are rendered unpadded.
The key field of every rendered entry is `rightPaddedString` applied to the
quoted descriptor plus comma with the constant 25. -/
theorem key_field_padding :
    (∀ s : String, s.length < 24 →
        rightPaddedString s 25 = s ++ String.mk (List.replicate (24 - s.length) ' ') ∧
        (rightPaddedString s 25).length = 24) ∧
    (∀ s : String, 24 < s.length → rightPaddedString s 25 = s) ∧
    (∀ (kbLabel : Option Keybinding → String) (out : OutputBuilder)
        (item : NormalizedKeybindingItem), item.when = none →
        IOSupport.writeKeybindingItem kbLabel out item =
          out.write ("\x7b \"key\": " ++
            rightPaddedString (jsonQuote (kbLabel item.keybinding) ++ ",") 25 ++
            " \"command\": " ++ jsonQuote item.command ++ " \x7d")) := by
  refine ⟨?_, ?_, ?_⟩
  · intro s hs
    have h1 : rightPaddedString s 25 = s ++ String.mk (List.replicate (24 - s.length) ' ') := by
      rw [rightPaddedString, if_pos (by omega)]
      have : 25 - s.length - 1 = 24 - s.length := by omega
      rw [this]
    refine ⟨h1, ?_⟩
    rw [h1]
    simp only [String.length_append, String.length_mk, List.length_replicate]
    omega
  · intro s hs
    rw [rightPaddedString, if_neg (by omega)]
  · intro kbLabel out item hwhen
    have hsp : (" " : String) ++ "\x7d" = " \x7d" := rfl
    simp [IOSupport.writeKeybindingItem, hwhen, OutputBuilder.write,
      String.append_assoc, hsp, ContextKeyExpr.serialize]

theorem addToLookupMap_dbc (r : KeybindingResolver) (item : NormalizedKeybindingItem) :
    (r.addToLookupMap item).defaultBoundCommands = r.defaultBoundCommands := by
  rw [KeybindingResolver.addToLookupMap]
  split
  · rfl
  · split <;> rfl

theorem removeFromLookupMap_dbc (r : KeybindingResolver) (item : NormalizedKeybindingItem) :
    (r.removeFromLookupMap item).defaultBoundCommands = r.defaultBoundCommands := by
  rw [KeybindingResolver.removeFromLookupMap]
  split <;> rfl

theorem handleConflict_dbc (item : NormalizedKeybindingItem)
    (r : KeybindingResolver) (conflict : NormalizedKeybindingItem) :
    (KeybindingResolver.handleConflict item r conflict).defaultBoundCommands =
      r.defaultBoundCommands := by
  rw [KeybindingResolver.handleConflict]
  split
  · rfl
  · split
    · rfl
    · split
      · rw [removeFromLookupMap_dbc]
      · rfl

theorem shadowScan_dbc (item : NormalizedKeybindingItem) :
    ∀ (cs : List NormalizedKeybindingItem) (r : KeybindingResolver),
      (KeybindingResolver.shadowScan item r cs).defaultBoundCommands =
        r.defaultBoundCommands := by
  intro cs
  induction cs with
  | nil => intro r; rfl
  | cons c rest ih =>
      intro r
      rw [KeybindingResolver.shadowScan, ih, handleConflict_dbc]

theorem addKeyPress_dbc (r : KeybindingResolver) (keypress : Nat)
    (item : NormalizedKeybindingItem) :
    (r.addKeyPress keypress item).defaultBoundCommands = r.defaultBoundCommands := by
  rw [KeybindingResolver.addKeyPress]
  split
  · rw [addToLookupMap_dbc]
  · rw [addToLookupMap_dbc]
    exact shadowScan_dbc _ _ _

theorem insertItem_dbc (r : KeybindingResolver) (k : NormalizedKeybindingItem) :
    (KeybindingResolver.insertItem r k).defaultBoundCommands = r.defaultBoundCommands := by
  rw [KeybindingResolver.insertItem]
  split
  · rfl
  · split
    · rw [addKeyPress_dbc]
      rfl
    · rw [addKeyPress_dbc]

theorem foldl_insertItem_dbc :
    ∀ (l : List NormalizedKeybindingItem) (r : KeybindingResolver),
      (l.foldl KeybindingResolver.insertItem r).defaultBoundCommands =
        r.defaultBoundCommands := by
  intro l
  induction l with
  | nil => intro r; rfl
  | cons x rest ih =>
      intro r
      rw [List.foldl_cons, ih, insertItem_dbc]

/-- Claim C10: resolvers built from the same defaults but any two override
lists report identical `getDefaultBoundCommands()` sets: the set is computed
from the raw defaults before removal directives apply, so a command stays
reported even when overrides delete all of its default rules, and commands of
defaults with a null keybinding are included too. -/
theorem default_bound_commands_ignore_overrides
    (D O1 O2 : List NormalizedKeybindingItem) (w1 w2 : Bool) :
    (KeybindingResolver.make D O1 w1).getDefaultBoundCommands =
      (KeybindingResolver.make D O2 w2).getDefaultBoundCommands ∧
    (∀ c, c ∈ (KeybindingResolver.make D O1 w1).getDefaultBoundCommands ↔
      ∃ d ∈ D, d.command = c) := by
  have key : ∀ (O : List NormalizedKeybindingItem) (w : Bool),
      (KeybindingResolver.make D O w).getDefaultBoundCommands =
        D.map (fun k => k.command) := by
    intro O w
    rw [KeybindingResolver.make, KeybindingResolver.getDefaultBoundCommands,
      foldl_insertItem_dbc]
  refine ⟨by rw [key, key], ?_⟩
  intro c
  rw [key]
  simp [List.mem_map]

/-- Claim C2 (counterexample to the claim as stated): rule A (command `X`,
condition clauses `[p]`) inserted first and rule B (command `Y`, condition
clauses `[p, q]`) inserted after on the same key-press satisfy the claim's
hypothesis (`c1`'s clauses are a subset of `c2`'s clauses), yet
`lookupKeybindings("X")` still contains A's keybinding, and resolving with a
context satisfying `c1` but not `c2` yields Invoke(X), not NoMatch. -/
theorem total_shadow_claim_counterexample :
    (⟨["p"]⟩ : ContextKeyExpr).clauses ⊆ (⟨["p", "q"]⟩ : ContextKeyExpr).clauses ∧
    (KeybindingResolver.make [⟨some (.simple 5), false, "X", none, some ⟨["p"]⟩, true⟩]
        [⟨some (.simple 5), false, "Y", none, some ⟨["p", "q"]⟩, false⟩] true).lookupKeybindings "X" =
      [⟨some (.simple 5), false, "X", none, some ⟨["p"]⟩, true⟩] ∧
    ContextKeyExpr.evaluate ⟨["p"]⟩ (fun s => s == "p") = true ∧
    ContextKeyExpr.evaluate ⟨["p", "q"]⟩ (fun s => s == "p") = false ∧
    (KeybindingResolver.make [⟨some (.simple 5), false, "X", none, some ⟨["p"]⟩, true⟩]
        [⟨some (.simple 5), false, "Y", none, some ⟨["p", "q"]⟩, false⟩] true).resolve
        (fun s => s == "p") none ⟨5, false⟩ =
      some { enterChord := none, commandId := some "X", commandArgs := none, bubble := false } := by
  decide

/-- Claim C2 (witness): a concrete instance of the amended total-shadow
scenario: with `c1 = [p, q]` and `c2 = [p]`, command `X` loses its lookup
entry. -/
theorem total_shadow_scenario_witness :
    ("X" : String) ≠ "Y" ∧
    (∀ s ∈ (⟨["p"]⟩ : ContextKeyExpr).clauses, s ∈ (⟨["p", "q"]⟩ : ContextKeyExpr).clauses) ∧
    (KeybindingResolver.make [⟨some (.simple 5), false, "X", none, some ⟨["p", "q"]⟩, true⟩]
        [⟨some (.simple 5), false, "Y", none, some ⟨["p"]⟩, false⟩] true).lookupKeybindings "X" = [] :=
  ⟨by decide, by decide,
    (total_shadow_scenario 5 "X" "Y" ⟨["p", "q"]⟩ ⟨["p"]⟩ none none true ⟨5, false⟩
      (by decide) (by decide) (by decide) (by decide) (by decide) rfl).1⟩

/-- Claim C3 (counterexample to the claim as stated): a default rule shadowed
by an override (the exact provenance combination for which the claim demands
a warning) produces no warning — the shadow does occur, as the default's
lookup entry is gone — while a default rule shadowing another default (a
combination for which the claim demands silence) does produce a warning. -/
theorem conflict_warning_claim_counterexample :
    (KeybindingResolver.make [⟨some (.simple 5), false, "X", none, some ⟨["p", "q"]⟩, true⟩]
        [⟨some (.simple 5), false, "Y", none, some ⟨["p"]⟩, false⟩] true).warnings = [] ∧
    (KeybindingResolver.make [⟨some (.simple 5), false, "X", none, some ⟨["p", "q"]⟩, true⟩]
        [⟨some (.simple 5), false, "Y", none, some ⟨["p"]⟩, false⟩] true).lookupKeybindings "X" = [] ∧
    (KeybindingResolver.make [⟨some (.simple 5), false, "X", none, some ⟨["p", "q"]⟩, true⟩,
        ⟨some (.simple 5), false, "Y", none, some ⟨["p"]⟩, true⟩] [] true).warnings = [("X", "Y")] := by
  decide

/-- Claim C3 (witness): a concrete instance of the amended warning rule: a
default rule shadowing a default rule records the conflict diagnostic. -/
theorem conflict_warning_iff_shadower_default_witness :
    (KeybindingResolver.make [⟨some (.simple 1), false, "a", none, some ⟨["p", "q"]⟩, true⟩,
        ⟨some (.simple 1), false, "b", none, some ⟨["p"]⟩, true⟩] [] true).warnings = [("a", "b")] :=
  (conflict_warning_iff_shadower_default
    ⟨some (.simple 1), false, "a", none, some ⟨["p", "q"]⟩, true⟩
    ⟨some (.simple 1), false, "b", none, some ⟨["p"]⟩, true⟩ 1 true
    rfl rfl (by decide) (by decide) (by decide) (by decide)).1

/-- Claim C6 (witness): concrete chord round trip for the chord `(1, 2)`
bound to command `z`. -/
theorem chord_round_trip_witness :
    dispatchStep (KeybindingResolver.make [⟨some (.chord 1 2), false, "z", some "arg", none, true⟩] [] true)
        true (fun _ => true) none ⟨1, false⟩ =
      { currentChord := some ⟨1, false⟩, shouldPreventDefault := true, executed := none } ∧
    dispatchStep (KeybindingResolver.make [⟨some (.chord 1 2), false, "z", some "arg", none, true⟩] [] true)
        true (fun _ => true) (some ⟨1, false⟩) ⟨2, false⟩ =
      { currentChord := none, shouldPreventDefault := true, executed := some ("z", some "arg") } ∧
    dispatchStep (KeybindingResolver.make [⟨some (.chord 1 2), false, "z", some "arg", none, true⟩] [] true)
        true (fun _ => true) (some ⟨1, false⟩) ⟨3, false⟩ =
      { currentChord := none, shouldPreventDefault := true, executed := none } := by
  have h := chord_round_trip ⟨some (.chord 1 2), false, "z", some "arg", none, true⟩
    ⟨1, false⟩ ⟨2, false⟩ true true (fun _ => true) rfl (by decide) rfl rfl rfl
  exact ⟨h.1, h.2.1, (h.2.2 ⟨3, false⟩ rfl (by decide)).2⟩

/-- Claim C7 (witness): the raw command `^save` yields command `save`,
`bubble = true`, and a dispatch that invokes `save` without suppressing
default handling. -/
theorem caret_rule_bubbles_witness :
    (NormalizedKeybindingItem.make (some (.simple 7)) "^save" none none true).command = "save" ∧
    (NormalizedKeybindingItem.make (some (.simple 7)) "^save" none none true).bubble = true ∧
    dispatchStep
        (KeybindingResolver.make
          [NormalizedKeybindingItem.make (some (.simple 7)) "^save" none none true] [] true)
        true (fun _ => true) none ⟨7, false⟩ =
      { currentChord := none, shouldPreventDefault := false, executed := some ("save", none) } :=
  caret_rule_bubbles "^save" 7 none none true true true (fun _ => true) ⟨7, false⟩
    (by decide) (by decide) (by decide) rfl rfl rfl

/-- Claim C8 (counterexample to the claim as stated): a key-press that starts
a chord (AwaitChord) is neither an invocation with `bubble = false` nor an
abandoned pending chord (the state was Idle), yet default handling is
suppressed. -/
theorem dispatch_suppression_counterexample :
    (dispatchStep (KeybindingResolver.make [⟨some (.chord 1 2), false, "z", none, none, true⟩] [] true)
        true (fun _ => true) none ⟨1, false⟩).executed = none ∧
    (dispatchStep (KeybindingResolver.make [⟨some (.chord 1 2), false, "z", none, none, true⟩] [] true)
        true (fun _ => true) none ⟨1, false⟩).currentChord = some ⟨1, false⟩ ∧
    (dispatchStep (KeybindingResolver.make [⟨some (.chord 1 2), false, "z", none, none, true⟩] [] true)
        true (fun _ => true) none ⟨1, false⟩).shouldPreventDefault = true := by
  decide

/-- Claim C9 (witness): a short quoted descriptor is padded to the 24-column
field, a long one is left unpadded, and a rendered entry uses exactly that
padded key field. -/
theorem key_field_padding_witness :
    (("\"ctrl+k\"," : String).length < 24 ∧
      rightPaddedString "\"ctrl+k\"," 25 =
        "\"ctrl+k\"," ++ String.mk (List.replicate (24 - ("\"ctrl+k\"," : String).length) ' ') ∧
      (rightPaddedString "\"ctrl+k\"," 25).length = 24) ∧
    (24 < ("\"0123456789012345678901234\"," : String).length ∧
      rightPaddedString "\"0123456789012345678901234\"," 25 = "\"0123456789012345678901234\",") ∧
    IOSupport.writeKeybindingItem (fun _ => "ctrl+k") OutputBuilder.empty
        ⟨some (.simple 1), false, "save", none, none, true⟩ =
      OutputBuilder.empty.write ("\x7b \"key\": " ++
        rightPaddedString (jsonQuote "ctrl+k" ++ ",") 25 ++
        " \"command\": " ++ jsonQuote "save" ++ " \x7d") :=
  ⟨⟨by decide, (key_field_padding.1 "\"ctrl+k\"," (by decide)).1,
      (key_field_padding.1 "\"ctrl+k\"," (by decide)).2⟩,
   ⟨by decide, key_field_padding.2.1 "\"0123456789012345678901234\"," (by decide)⟩,
   key_field_padding.2.2 (fun _ => "ctrl+k") OutputBuilder.empty
     ⟨some (.simple 1), false, "save", none, none, true⟩ rfl⟩

/-- Claim C1 (witness): the characterization of the shadow test evaluated at
the clause lists `[p, q]` (bucket side) and `[p]` (inserted side). -/
theorem whenIsEntirelyIncluded_characterization_witness :
    KeybindingResolver.whenIsEntirelyIncluded true (some ⟨["p", "q"]⟩) (some ⟨["p"]⟩) =
      specEntirelyIncluded (some ⟨["p"]⟩) (some ⟨["p", "q"]⟩) ∧
    (KeybindingResolver.whenIsEntirelyIncluded true (some ⟨["p", "q"]⟩) (some ⟨["p"]⟩) = true ↔
      ((some ⟨["p"]⟩ : Option ContextKeyExpr) = none ∨
        ((some ⟨["p", "q"]⟩ : Option ContextKeyExpr) ≠ none ∧
          ∀ s ∈ clausesOf (some ⟨["p"]⟩), s ∈ clausesOf (some ⟨["p", "q"]⟩)))) :=
  whenIsEntirelyIncluded_characterization (some ⟨["p", "q"]⟩) (some ⟨["p"]⟩)
